import Mathlib

/-!
Shallow embedding of `itusb1device.cpp` (ITUSB1 device class, version 1.0.0).

The ITUSB1 class is a thin sequencing layer over an external CP2130
USB-to-SPI/GPIO bridge driver.  We model the bridge as an explicit state
(`Ctx`): the two GPIO lines the class drives (GPIO.1 = !UPEN, GPIO.2 = !UDEN),
a queue of SPI read responses delivered by the transport, a queue of transport
error events (each a counter increment plus an appended message), the
caller-supplied error counter and message string, and a trace of the emitted
GPIO-set and sleep operations.  GPIO reads reflect prior GPIO writes, as the
claims assume.  Device methods are translated line by line from the source;
the CP2130 primitives themselves are modelled from the spec (the driver is an
external collaborator, out of scope of the repository).
-/

namespace ITUSB1

/-- Number of samples per measurement, applicable to getCurrent()
(`N_SAMPLES` in itusb1device.cpp line 28). -/
def N_SAMPLES : Nat := 5

/-- Observable operations emitted by the device class: GPIO line writes and
timed waits (`usleep`). -/
inductive Event where
  | evSetGPIO1 (v : Bool)
  | evSetGPIO2 (v : Bool)
  | evSetGPIOs (values mask : Nat)
  | evSleep (us : Nat)
deriving DecidableEq

/-- Bridge-and-environment state threaded through every operation.
`gpio1`/`gpio2` are the levels of the CP2130 GPIO.1 (!UPEN) and GPIO.2
(!UDEN) pins; `spiQueue` is the sequence of byte vectors the transport will
deliver to successive `spiRead` calls (each byte a value < 256, an arbitrary
length models a failed transfer); `errEvents` is the sequence of transport
error outcomes, one consumed per driver call; `errcnt`/`errstr` are the
caller-supplied accumulators; `trace` records emitted GPIO writes and
sleeps. -/
structure Ctx where
  gpio1 : Bool
  gpio2 : Bool
  spiQueue : List (List Nat)
  errEvents : List (Nat × String)
  errcnt : Nat
  errstr : String
  trace : List Event
deriving DecidableEq

namespace CP2130

/-- Modelled from the spec: CP2130 GPIO bitmask for GPIO.1 (bit 1). -/
def BMGPIO1 : Nat := 2

/-- Modelled from the spec: CP2130 GPIO bitmask for GPIO.2 (bit 2). -/
def BMGPIO2 : Nat := 4

/-- Modelled from the spec: CP2130 bitmask covering all eleven GPIO pins. -/
def BMGPIOS : Nat := 0x7FF

/-- Modelled from the spec: every fallible CP2130 driver call accumulates its
transport outcome — it increments the error counter and appends a
human-readable message rather than raising an exception (spec section 7).
One error event is consumed per driver call; a missing event means the call
succeeded silently. -/
def popErr (s : Ctx) : Ctx :=
  match s.errEvents with
  | [] => s
  | e :: rest =>
      { s with errEvents := rest, errcnt := s.errcnt + e.1,
               errstr := s.errstr ++ e.2 }

/-- Modelled from the spec: CP2130 `setGPIO1` drives GPIO.1 to `v`. -/
def setGPIO1 (v : Bool) (s : Ctx) : Ctx :=
  { popErr s with gpio1 := v, trace := s.trace ++ [Event.evSetGPIO1 v] }

/-- Modelled from the spec: CP2130 `setGPIO2` drives GPIO.2 to `v`. -/
def setGPIO2 (v : Bool) (s : Ctx) : Ctx :=
  { popErr s with gpio2 := v, trace := s.trace ++ [Event.evSetGPIO2 v] }

/-- Modelled from the spec: CP2130 `setGPIOs(values, mask)` drives every GPIO
pin whose bit is set in `mask` to the corresponding bit of `values`, leaving
the other pins alone. -/
def setGPIOs (values mask : Nat) (s : Ctx) : Ctx :=
  { popErr s with
      gpio1 := if mask.testBit 1 then values.testBit 1 else s.gpio1,
      gpio2 := if mask.testBit 2 then values.testBit 2 else s.gpio2,
      trace := s.trace ++ [Event.evSetGPIOs values mask] }

/-- Modelled from the spec: CP2130 `getGPIO1` reads the current GPIO.1 level
(GPIO reads faithfully reflect prior GPIO writes). -/
def getGPIO1 (s : Ctx) : Bool × Ctx := (s.gpio1, popErr s)

/-- Modelled from the spec: CP2130 `getGPIO2` reads the current GPIO.2 level. -/
def getGPIO2 (s : Ctx) : Bool × Ctx := (s.gpio2, popErr s)

/-- Modelled from the spec: CP2130 `spiRead` returns the next byte vector the
transport delivers (which need not have the requested size; an exhausted
queue delivers an empty vector). -/
def spiRead (s : Ctx) : List Nat × Ctx :=
  ((popErr s).spiQueue.headD [],
   { popErr s with spiQueue := (popErr s).spiQueue.tail })

/-- Modelled from the spec: CP2130 `selectCS` enables the chip select of the
given channel; it only talks to the transport. -/
def selectCS (s : Ctx) : Ctx := popErr s

/-- Modelled from the spec: CP2130 `disableCS` disables the chip select of the
given channel; it only talks to the transport. -/
def disableCS (s : Ctx) : Ctx := popErr s

end CP2130

/-- Modelled from the spec: `usleep(us)` blocks for `us` microseconds; in the
embedding it only emits a sleep event. -/
def usleep (us : Nat) (s : Ctx) : Ctx :=
  { s with trace := s.trace ++ [Event.evSleep us] }

/-- Raw ADC code assembled by `getRawCurrent` (itusb1device.cpp line 34) from a
delivered byte vector: if exactly 2 bytes arrived, `read[0] << 4 | read[1] >> 4`
cast to `uint16_t`; otherwise the zero sentinel.  Bytes are `uint8_t`, hence
the reduction mod 256; the cast is the reduction mod 65536. -/
def rawCode (read : List Nat) : Nat :=
  if read.length = 2 then
    ((read.getD 0 0 % 256) <<< 4 ||| (read.getD 1 0 % 256) >>> 4) % 65536
  else 0

/-- `ITUSB1Device::getRawCurrent` (lines 31-35): one SPI read of 2 bytes,
assembled by `rawCode`. -/
def getRawCurrent (s : Ctx) : Nat × Ctx :=
  (rawCode (CP2130.spiRead s).1, (CP2130.spiRead s).2)

/-- The sampling loop of `getCurrent` (lines 94-97): `n` further raw reads
added to the accumulator `acc`. -/
def sampleSum : Nat → Nat → Ctx → Nat × Ctx
  | 0, acc, s => (acc, s)
  | n + 1, acc, s => sampleSum n (acc + (getRawCurrent s).1) (getRawCurrent s).2

/-- `ITUSB1Device::getCurrent` (lines 90-101): select CS 0, discard one raw
reading, sum `N_SAMPLES` raw readings, wait 100 us, disable CS 0, and return
`currentCodeSum / (4.0 * N_SAMPLES)`.  The float arithmetic is embedded
exactly over `ℚ`. -/
def getCurrent (s : Ctx) : ℚ × Ctx :=
  let s1 := CP2130.selectCS s
  let s2 := (getRawCurrent s1).2
  let p := sampleSum N_SAMPLES 0 s2
  let s3 := usleep 100 p.2
  let s4 := CP2130.disableCS s3
  ((p.1 : ℚ) / (4 * (N_SAMPLES : ℚ)), s4)

/-- `ITUSB1Device::getUSBDataStatus` (lines 134-137): the negation of GPIO.2
(the !UDEN signal). -/
def getUSBDataStatus (s : Ctx) : Bool × Ctx :=
  (!(CP2130.getGPIO2 s).1, (CP2130.getGPIO2 s).2)

/-- `ITUSB1Device::getUSBPowerStatus` (lines 140-143): the negation of GPIO.1
(the !UPEN signal). -/
def getUSBPowerStatus (s : Ctx) : Bool × Ctx :=
  (!(CP2130.getGPIO1 s).1, (CP2130.getGPIO1 s).2)

/-- `ITUSB1Device::switchUSB` (lines 174-177): operate GPIO.1 and GPIO.2
simultaneously via `setGPIOs(BMGPIOS * !value, BMGPIO1 | BMGPIO2)`. -/
def switchUSB (value : Bool) (s : Ctx) : Ctx :=
  CP2130.setGPIOs (CP2130.BMGPIOS * (if value then 0 else 1))
    (CP2130.BMGPIO1 ||| CP2130.BMGPIO2) s

/-- `ITUSB1Device::switchUSBData` (lines 180-183): GPIO.2 := !value. -/
def switchUSBData (value : Bool) (s : Ctx) : Ctx :=
  CP2130.setGPIO2 (!value) s

/-- `ITUSB1Device::switchUSBPower` (lines 186-189): GPIO.1 := !value. -/
def switchUSBPower (value : Bool) (s : Ctx) : Ctx :=
  CP2130.setGPIO1 (!value) s

/-- `ITUSB1Device::attach` (lines 55-67): if the power and data statuses
disagree, switch both off and wait 100 ms; then, if both are off (the `&&`
short-circuits, so the data status is only read when the power status is
off), switch power on, wait 100 ms, connect data, wait 100 ms. -/
def attach (s : Ctx) : Ctx :=
  let p := (getUSBPowerStatus s).1
  let s1 := (getUSBPowerStatus s).2
  let d := (getUSBDataStatus s1).1
  let s2 := (getUSBDataStatus s1).2
  let s3 := if p != d then usleep 100000 (switchUSB false s2) else s2
  let s4 := (getUSBPowerStatus s3).2
  if !(getUSBPowerStatus s3).1 then
    let s5 := (getUSBDataStatus s4).2
    if !(getUSBDataStatus s4).1 then
      usleep 100000 (switchUSBData true (usleep 100000 (switchUSBPower true s5)))
    else s5
  else s4

/-- `ITUSB1Device::detach` (lines 76-86): if the data lines are connected,
disconnect them and wait 100 ms; then, if VBUS is on, switch it off and wait
100 ms. -/
def detach (s : Ctx) : Ctx :=
  let d := (getUSBDataStatus s).1
  let s1 := (getUSBDataStatus s).2
  let s2 := if d then usleep 100000 (switchUSBData false s1) else s1
  let p := (getUSBPowerStatus s2).1
  let s3 := (getUSBPowerStatus s2).2
  if p then usleep 100000 (switchUSBPower false s3) else s3

/-- Recognizer for sleep events in a trace. -/
def isSleepEvent : Event → Bool
  | Event.evSleep _ => true
  | _ => false

/-- Recognizer for the power-enable write (GPIO.1 driven low switches VBUS
on). -/
def isPowerOnEvent : Event → Bool
  | Event.evSetGPIO1 v => !v
  | _ => false

/-- The all-off state: both GPIO lines high, so VBUS and the data lines are
both disconnected; no pending transport data or errors. -/
def allOffCtx : Ctx := ⟨true, true, [], [], 0, "", []⟩

/-- The fully-attached state: both GPIO lines low, so VBUS and the data lines
are both connected. -/
def allOnCtx : Ctx := ⟨false, false, [], [], 0, "", []⟩

/-- A concrete transport queue: one reading to discard, then five identical
samples with bytes 0x12 0x34, i.e. raw code 0x123 = 291. -/
def sampleCtx : Ctx :=
  ⟨true, true, [[0, 0], [18, 52], [18, 52], [18, 52], [18, 52], [18, 52]], [], 0, "", []⟩

/-- A transport queue delivering a malformed 3-byte response. -/
def badReadCtx : Ctx := ⟨true, true, [[9, 9, 9]], [], 0, "", []⟩

/-- The state `t` extends the state `s` on the error accumulators: the counter
has not decreased and the message string has only been appended to. -/
def ErrExt (s t : Ctx) : Prop :=
  s.errcnt ≤ t.errcnt ∧ ∃ u, t.errstr = s.errstr ++ u

/-- An operation accumulates errors: from every state it only extends the
error counter and message string. -/
def errAccumulating (f : Ctx → Ctx) : Prop := ∀ s, ErrExt s (f s)

@[simp] theorem popErr_gpio1 (s : Ctx) : (CP2130.popErr s).gpio1 = s.gpio1 := by
  unfold CP2130.popErr
  cases s.errEvents <;> rfl

@[simp] theorem popErr_gpio2 (s : Ctx) : (CP2130.popErr s).gpio2 = s.gpio2 := by
  unfold CP2130.popErr
  cases s.errEvents <;> rfl

@[simp] theorem popErr_spiQueue (s : Ctx) :
    (CP2130.popErr s).spiQueue = s.spiQueue := by
  unfold CP2130.popErr
  cases s.errEvents <;> rfl

@[simp] theorem popErr_trace (s : Ctx) : (CP2130.popErr s).trace = s.trace := by
  unfold CP2130.popErr
  cases s.errEvents <;> rfl

theorem popErr_errEvents (s : Ctx) :
    (CP2130.popErr s).errEvents = s.errEvents.tail := by
  rcases s with ⟨g1, g2, sq, ee, ec, es, tr⟩
  cases ee <;> rfl

theorem popErr_errcnt (s : Ctx) :
    (CP2130.popErr s).errcnt = s.errcnt + (s.errEvents.headD (0, "")).1 := by
  rcases s with ⟨g1, g2, sq, ee, ec, es, tr⟩
  cases ee <;> rfl

theorem popErr_errstr (s : Ctx) :
    (CP2130.popErr s).errstr = s.errstr ++ (s.errEvents.headD (0, "")).2 := by
  rcases s with ⟨g1, g2, sq, ee, ec, es, tr⟩
  cases ee with
  | nil => exact (String.append_empty _).symm
  | cons e rest => rfl

theorem testBit_six_one : Nat.testBit 6 1 = true := by decide

theorem testBit_six_two : Nat.testBit 6 2 = true := by decide

theorem testBit_mask_one : Nat.testBit 2047 1 = true := by decide

theorem testBit_mask_two : Nat.testBit 2047 2 = true := by decide

theorem getCurrent_fst_eq (s : Ctx) :
    (getCurrent s).1 = ((rawCode (s.spiQueue.getD 1 []) + rawCode (s.spiQueue.getD 2 []) +
      rawCode (s.spiQueue.getD 3 []) + rawCode (s.spiQueue.getD 4 []) +
      rawCode (s.spiQueue.getD 5 []) : ℕ) : ℚ) / (4 * (N_SAMPLES : ℚ)) := by
  rcases hq : s.spiQueue with _ | ⟨r0, _ | ⟨r1, _ | ⟨r2, _ | ⟨r3, _ | ⟨r4, _ | ⟨r5, rest⟩⟩⟩⟩⟩⟩ <;>
    simp [getCurrent, sampleSum, getRawCurrent, CP2130.spiRead, CP2130.selectCS,
      CP2130.disableCS, usleep, N_SAMPLES, hq]

theorem getCurrent_spiQueue_eq (s : Ctx) :
    (getCurrent s).2.spiQueue = s.spiQueue.drop (1 + N_SAMPLES) := by
  rcases hq : s.spiQueue with _ | ⟨r0, _ | ⟨r1, _ | ⟨r2, _ | ⟨r3, _ | ⟨r4, _ | ⟨r5, rest⟩⟩⟩⟩⟩⟩ <;>
    simp [getCurrent, sampleSum, getRawCurrent, CP2130.spiRead, CP2130.selectCS,
      CP2130.disableCS, usleep, N_SAMPLES, hq]

theorem errExt_refl (s : Ctx) : ErrExt s s :=
  ⟨le_refl _, "", (String.append_empty _).symm⟩

theorem errExt_trans {a b c : Ctx} (h1 : ErrExt a b) (h2 : ErrExt b c) :
    ErrExt a c := by
  obtain ⟨l1, u1, e1⟩ := h1
  obtain ⟨l2, u2, e2⟩ := h2
  exact ⟨le_trans l1 l2, u1 ++ u2, by rw [e2, e1, String.append_assoc]⟩

theorem errExt_popErr (s : Ctx) : ErrExt s (CP2130.popErr s) := by
  rcases s with ⟨g1, g2, sq, ee, ec, es, tr⟩
  cases ee with
  | nil => exact errExt_refl _
  | cons e rest => exact ⟨Nat.le_add_right _ _, e.2, rfl⟩

theorem errExt_setGPIO1 (v : Bool) (s : Ctx) : ErrExt s (CP2130.setGPIO1 v s) := by
  obtain ⟨l, u, e⟩ := errExt_popErr s
  exact ⟨l, u, e⟩

theorem errExt_setGPIO2 (v : Bool) (s : Ctx) : ErrExt s (CP2130.setGPIO2 v s) := by
  obtain ⟨l, u, e⟩ := errExt_popErr s
  exact ⟨l, u, e⟩

theorem errExt_setGPIOs (a b : Nat) (s : Ctx) : ErrExt s (CP2130.setGPIOs a b s) := by
  obtain ⟨l, u, e⟩ := errExt_popErr s
  exact ⟨l, u, e⟩

theorem errExt_spiRead (s : Ctx) : ErrExt s (CP2130.spiRead s).2 := by
  obtain ⟨l, u, e⟩ := errExt_popErr s
  exact ⟨l, u, e⟩

theorem errExt_usleep (us : Nat) (s : Ctx) : ErrExt s (usleep us s) := by
  obtain ⟨l, u, e⟩ := errExt_refl s
  exact ⟨l, u, e⟩

theorem errExt_getRawCurrent (s : Ctx) : ErrExt s (getRawCurrent s).2 :=
  errExt_spiRead s

theorem errExt_sampleSum (n : Nat) : ∀ acc s, ErrExt s (sampleSum n acc s).2 := by
  induction n with
  | zero => exact fun acc s => errExt_refl s
  | succ n ih =>
      exact fun acc s => errExt_trans (errExt_getRawCurrent s) (ih _ _)

theorem errExt_getCurrent (s : Ctx) : ErrExt s (getCurrent s).2 := by
  refine errExt_trans (errExt_popErr s) ?_
  refine errExt_trans (errExt_getRawCurrent _) ?_
  refine errExt_trans (errExt_sampleSum N_SAMPLES 0 _) ?_
  refine errExt_trans (errExt_usleep 100 _) ?_
  exact errExt_popErr _

theorem errExt_getUSBPowerStatus (s : Ctx) : ErrExt s (getUSBPowerStatus s).2 :=
  errExt_popErr s

theorem errExt_getUSBDataStatus (s : Ctx) : ErrExt s (getUSBDataStatus s).2 :=
  errExt_popErr s

theorem errExt_switchUSB (v : Bool) (s : Ctx) : ErrExt s (switchUSB v s) :=
  errExt_setGPIOs _ _ s

theorem errExt_attach (s : Ctx) : ErrExt s (attach s) := by
  cases hg1 : s.gpio1 <;> cases hg2 : s.gpio2 <;>
    simp [ErrExt, attach, getUSBPowerStatus, getUSBDataStatus, switchUSB,
      switchUSBPower, switchUSBData, CP2130.setGPIO1, CP2130.setGPIO2,
      CP2130.setGPIOs, CP2130.getGPIO1, CP2130.getGPIO2, usleep,
      popErr_errcnt, popErr_errstr, popErr_errEvents, hg1, hg2,
      CP2130.BMGPIO1, CP2130.BMGPIO2, CP2130.BMGPIOS,
      testBit_six_one, testBit_six_two, testBit_mask_one, testBit_mask_two] <;>
    refine ⟨by omega, ?_⟩ <;>
    · simp only [String.append_assoc]
      exact ⟨_, rfl⟩

theorem errExt_detach (s : Ctx) : ErrExt s (detach s) := by
  cases hg1 : s.gpio1 <;> cases hg2 : s.gpio2 <;>
    simp [ErrExt, detach, getUSBPowerStatus, getUSBDataStatus,
      switchUSBPower, switchUSBData, CP2130.setGPIO1, CP2130.setGPIO2,
      CP2130.getGPIO1, CP2130.getGPIO2, usleep,
      popErr_errcnt, popErr_errstr, popErr_errEvents, hg1, hg2] <;>
    refine ⟨by omega, ?_⟩ <;>
    · simp only [String.append_assoc]
      exact ⟨_, rfl⟩

theorem rawCode_le (r : List Nat) : rawCode r ≤ 4095 := by
  unfold rawCode
  split
  · refine le_trans (Nat.mod_le _ _) ?_
    have h1 : (r.getD 0 0 % 256) <<< 4 < 2 ^ 12 := by
      rw [Nat.shiftLeft_eq]
      have hb : r.getD 0 0 % 256 < 256 := Nat.mod_lt _ (by norm_num)
      omega
    have h2 : (r.getD 1 0 % 256) >>> 4 < 2 ^ 12 := by
      rw [Nat.shiftRight_eq_div_pow]
      have : r.getD 1 0 % 256 < 256 := Nat.mod_lt _ (by norm_num)
      have := Nat.div_le_self (r.getD 1 0 % 256) (2 ^ 4)
      omega
    have := Nat.or_lt_two_pow h1 h2
    omega
  · omega

/-- C1: `getCurrent` performs exactly one discarded raw ADC read followed by
exactly 5 raw ADC reads whose values are summed; only the 5 post-discard
samples contribute to the returned average, for every sequence of raw
readings the bridge delivers.  The returned value is determined by queue
entries 1 through 5 alone (entry 0 is the discarded read), and exactly
`1 + N_SAMPLES` responses are consumed from the transport queue. -/
theorem getCurrent_discards_one_then_averages_five (s : Ctx) :
    (getCurrent s).1 = ((rawCode (s.spiQueue.getD 1 []) + rawCode (s.spiQueue.getD 2 []) +
      rawCode (s.spiQueue.getD 3 []) + rawCode (s.spiQueue.getD 4 []) +
      rawCode (s.spiQueue.getD 5 []) : ℕ) : ℚ) / (4 * (N_SAMPLES : ℚ)) ∧
    (getCurrent s).2.spiQueue = s.spiQueue.drop (1 + N_SAMPLES) :=
  ⟨getCurrent_fst_eq s, getCurrent_spiQueue_eq s⟩

/-- C2: for every 5-tuple of raw ADC codes sampled after the discard,
`getCurrent` returns their sum divided by `4.0 * 5`, i.e. `sum / 20.0`. -/
theorem getCurrent_average_formula (d r1 r2 r3 r4 r5 : List Nat)
    (rest : List (List Nat)) (s : Ctx)
    (h : s.spiQueue = d :: r1 :: r2 :: r3 :: r4 :: r5 :: rest) :
    (getCurrent s).1 =
      ((rawCode r1 + rawCode r2 + rawCode r3 + rawCode r4 + rawCode r5 : ℕ) : ℚ) / 20 := by
  rw [getCurrent_fst_eq s, h]
  norm_num [N_SAMPLES]

/-- Witness for C2: with bytes 0x12 0x34 the raw code is 0x123 = 291, and five
such samples average to 5 * 291 / 20 = 72.75, the hand-computed value. -/
theorem getCurrent_average_formula_witness : (getCurrent sampleCtx).1 = 72.75 := by
  rw [getCurrent_average_formula [0, 0] [18, 52] [18, 52] [18, 52] [18, 52] [18, 52]
    [] sampleCtx rfl]
  norm_num [rawCode, Nat.shiftLeft_eq, Nat.shiftRight_eq_div_pow,
    show (288 ||| 3 : Nat) = 291 from by decide]

/-- C3 counterexample: from the all-off state, `attach` emits exactly
power-on, wait, data-on, wait — there is no wait event anywhere before the
power-enable write, refuting the claimed "wait after ensuring both lines are
off and before enabling power" for the all-off start.  (The off-forcing
`switchUSB(false)` and its wait happen only when the two statuses disagree,
and from the all-off state they agree.) -/
theorem attach_allOff_no_wait_before_power_cex :
    (attach allOffCtx).trace = [Event.evSetGPIO1 false, Event.evSleep 100000,
      Event.evSetGPIO2 false, Event.evSleep 100000] ∧
    ¬ ∃ i j : Fin (attach allOffCtx).trace.length, (i : Nat) < (j : Nat) ∧
      isSleepEvent ((attach allOffCtx).trace.get i) = true ∧
      isPowerOnEvent ((attach allOffCtx).trace.get j) = true := by decide

/-- C3 (amended): starting from any state in which the power status and the
data status are both off, `attach` switches power on strictly before data on,
with a 100 ms wait after the power-enable and a 100 ms wait after the
data-enable; no wait precedes the power-enable from this state, because the
off-forcing `switchUSB(false)` step and its wait are emitted only from a
mismatched state. -/
theorem attach_from_all_off_power_then_data (s : Ctx)
    (hp : (getUSBPowerStatus s).1 = false)
    (hd : (getUSBDataStatus s).1 = false) :
    (attach s).trace = s.trace ++ [Event.evSetGPIO1 false, Event.evSleep 100000,
      Event.evSetGPIO2 false, Event.evSleep 100000] := by
  simp [getUSBPowerStatus, getUSBDataStatus, CP2130.getGPIO1, CP2130.getGPIO2] at hp hd
  simp [attach, getUSBPowerStatus, getUSBDataStatus, switchUSB, switchUSBPower,
    switchUSBData, CP2130.setGPIO1, CP2130.setGPIO2, CP2130.setGPIOs,
    CP2130.getGPIO1, CP2130.getGPIO2, usleep, hp, hd]

/-- Witness for the amended C3, at the concrete all-off state. -/
theorem attach_from_all_off_power_then_data_witness :
    (attach allOffCtx).trace = allOffCtx.trace ++ [Event.evSetGPIO1 false,
      Event.evSleep 100000, Event.evSetGPIO2 false, Event.evSleep 100000] :=
  attach_from_all_off_power_then_data allOffCtx rfl rfl

/-- C4: for every starting GPIO state, `detach` disconnects the data lines
strictly before switching VBUS power off, with a 100 ms wait after each
disable, and each disable is emitted exactly when the corresponding line is
currently on — the emitted trace is the data-off block (iff data was on)
followed by the power-off block (iff power was on). -/
theorem detach_data_before_power (s : Ctx) :
    (detach s).trace = s.trace ++
      (if (getUSBDataStatus s).1 then [Event.evSetGPIO2 true, Event.evSleep 100000] else []) ++
      (if (getUSBPowerStatus s).1 then [Event.evSetGPIO1 true, Event.evSleep 100000] else []) := by
  cases h1 : s.gpio1 <;> cases h2 : s.gpio2 <;>
    simp [detach, getUSBPowerStatus, getUSBDataStatus, switchUSBPower,
      switchUSBData, CP2130.setGPIO1, CP2130.setGPIO2,
      CP2130.getGPIO1, CP2130.getGPIO2, usleep, h1, h2]

/-- C5: when the power status and the data status agree and are both on,
`attach` issues no GPIO line changes and no waits: both GPIO lines and the
emitted trace are exactly as before. -/
theorem attach_noop_when_both_on (s : Ctx)
    (hp : (getUSBPowerStatus s).1 = true)
    (hd : (getUSBDataStatus s).1 = true) :
    (attach s).gpio1 = s.gpio1 ∧ (attach s).gpio2 = s.gpio2 ∧
    (attach s).trace = s.trace := by
  simp [getUSBPowerStatus, getUSBDataStatus, CP2130.getGPIO1, CP2130.getGPIO2] at hp hd
  simp [attach, getUSBPowerStatus, getUSBDataStatus, CP2130.getGPIO1,
    CP2130.getGPIO2, hp, hd]

/-- Witness for C5, at the concrete fully-attached state. -/
theorem attach_noop_when_both_on_witness :
    (attach allOnCtx).gpio1 = allOnCtx.gpio1 ∧ (attach allOnCtx).gpio2 = allOnCtx.gpio2 ∧
    (attach allOnCtx).trace = allOnCtx.trace :=
  attach_noop_when_both_on allOnCtx rfl rfl

/-- C6: an SPI read that fails to deliver exactly 2 bytes yields the zero
sentinel: the assembled raw code is 0, and `getRawCurrent` returns 0 for such
a response at the head of the transport queue, so a failed read contributes 0
to the `getCurrent` sum (and, the functions being total, nothing crashes). -/
theorem failed_read_zero_sentinel (r : List Nat) (s : Ctx) (hr : r.length ≠ 2)
    (hs : s.spiQueue.headD [] = r) :
    rawCode r = 0 ∧ (getRawCurrent s).1 = 0 := by
  have h0 : rawCode r = 0 := by simp [rawCode, hr]
  have hs2 : s.spiQueue.head?.getD [] = r := by
    rcases hq : s.spiQueue with _ | ⟨a, t⟩ <;> rw [hq] at hs <;> simpa using hs
  exact ⟨h0, by simp [getRawCurrent, CP2130.spiRead, hs2, h0]⟩

/-- Witness for C6, at a concrete malformed 3-byte response. -/
theorem failed_read_zero_sentinel_witness :
    rawCode [9, 9, 9] = 0 ∧ (getRawCurrent badReadCtx).1 = 0 :=
  failed_read_zero_sentinel [9, 9, 9] badReadCtx (by decide) rfl

/-- C7: every fallible operation of the device class signals failure only by
accumulating into the caller-supplied error counter and appending to the
message string: for each operation, and for the sequential composition of any
two error-accumulating operations, the counter is non-decreasing and the
final message string is the initial one with some suffix appended. -/
theorem fallible_ops_accumulate_errors :
    errAccumulating attach ∧ errAccumulating detach ∧
    errAccumulating (fun s => (getCurrent s).2) ∧
    errAccumulating (fun s => (getRawCurrent s).2) ∧
    errAccumulating (fun s => (getUSBPowerStatus s).2) ∧
    errAccumulating (fun s => (getUSBDataStatus s).2) ∧
    (∀ v, errAccumulating (switchUSBPower v)) ∧
    (∀ v, errAccumulating (switchUSBData v)) ∧
    (∀ v, errAccumulating (switchUSB v)) ∧
    (∀ f g, errAccumulating f → errAccumulating g →
      errAccumulating (fun s => g (f s))) :=
  ⟨errExt_attach, errExt_detach, errExt_getCurrent, errExt_getRawCurrent,
    errExt_getUSBPowerStatus, errExt_getUSBDataStatus,
    fun v s => errExt_setGPIO1 (!v) s, fun v s => errExt_setGPIO2 (!v) s,
    fun v s => errExt_setGPIOs _ _ s,
    fun f g hf hg s => errExt_trans (hf s) (hg (f s))⟩

/-- Witness for C7: the composition clause applied to the concrete sequence
`attach` then `detach`, from the all-off state. -/
theorem fallible_ops_accumulate_errors_witness :
    ErrExt allOffCtx (detach (attach allOffCtx)) :=
  fallible_ops_accumulate_errors.2.2.2.2.2.2.2.2.2 attach detach
    fallible_ops_accumulate_errors.1 fallible_ops_accumulate_errors.2.1 allOffCtx

/-- C8: for every initial GPIO state (GPIO reads reflecting prior writes, as
in this embedding), after `attach` returns both `getUSBPowerStatus` and
`getUSBDataStatus` report true: `attach` establishes the fully-attached state
from any of the four line configurations, including the mismatched ones. -/
theorem attach_establishes_attached_state (s : Ctx) :
    (getUSBPowerStatus (attach s)).1 = true ∧
    (getUSBDataStatus (attach s)).1 = true := by
  cases h1 : s.gpio1 <;> cases h2 : s.gpio2 <;>
    simp [attach, getUSBPowerStatus, getUSBDataStatus, switchUSB, switchUSBPower,
      switchUSBData, CP2130.setGPIO1, CP2130.setGPIO2, CP2130.setGPIOs,
      CP2130.getGPIO1, CP2130.getGPIO2, usleep, CP2130.BMGPIO1, CP2130.BMGPIO2,
      CP2130.BMGPIOS, h1, h2,
      testBit_six_one, testBit_six_two, testBit_mask_one, testBit_mask_two]

/-- C9: the status getters and switch setters are consistent through the
active-low GPIO encoding — for every boolean `v` and every state, after
`switchUSBPower v` the power status reads `v`, and after `switchUSBData v`
the data status reads `v`. -/
theorem switch_status_roundtrip (s : Ctx) (v : Bool) :
    (getUSBPowerStatus (switchUSBPower v s)).1 = v ∧
    (getUSBDataStatus (switchUSBData v s)).1 = v := by
  cases v <;>
    simp [getUSBPowerStatus, getUSBDataStatus, switchUSBPower, switchUSBData,
      CP2130.setGPIO1, CP2130.setGPIO2, CP2130.getGPIO1, CP2130.getGPIO2]

/-- C10: for every sequence of bridge responses, `getCurrent` returns a value
in the closed interval [0, 1023.75]: each raw sample is a 12-bit code at most
4095, so the sum of 5 samples divided by 20 is at most 1023.75. -/
theorem getCurrent_within_range (s : Ctx) :
    0 ≤ (getCurrent s).1 ∧ (getCurrent s).1 ≤ 1023.75 := by
  have h := getCurrent_fst_eq s
  have h5 : (4 * (N_SAMPLES : ℚ)) = 20 := by norm_num [N_SAMPLES]
  constructor
  · rw [h]
    positivity
  · rw [h, h5, div_le_iff₀ (by norm_num : (0 : ℚ) < 20)]
    have b1 := rawCode_le (s.spiQueue.getD 1 [])
    have b2 := rawCode_le (s.spiQueue.getD 2 [])
    have b3 := rawCode_le (s.spiQueue.getD 3 [])
    have b4 := rawCode_le (s.spiQueue.getD 4 [])
    have b5 := rawCode_le (s.spiQueue.getD 5 [])
    have hsum : rawCode (s.spiQueue.getD 1 []) + rawCode (s.spiQueue.getD 2 []) +
        rawCode (s.spiQueue.getD 3 []) + rawCode (s.spiQueue.getD 4 []) +
        rawCode (s.spiQueue.getD 5 []) ≤ 20475 := by omega
    have hc : ((rawCode (s.spiQueue.getD 1 []) + rawCode (s.spiQueue.getD 2 []) +
        rawCode (s.spiQueue.getD 3 []) + rawCode (s.spiQueue.getD 4 []) +
        rawCode (s.spiQueue.getD 5 []) : ℕ) : ℚ) ≤ 20475 := by exact_mod_cast hsum
    calc ((rawCode (s.spiQueue.getD 1 []) + rawCode (s.spiQueue.getD 2 []) +
        rawCode (s.spiQueue.getD 3 []) + rawCode (s.spiQueue.getD 4 []) +
        rawCode (s.spiQueue.getD 5 []) : ℕ) : ℚ) ≤ 20475 := hc
      _ = 1023.75 * 20 := by norm_num

end ITUSB1
